import Mathlib

/-!
Shallow embedding of the Stripe webhook relay route
(src/app/api/stripe/webhook/route.ts) and proofs about it.

The repository file contains two variants of the route separated by a
document marker: an earlier, simpler variant (here namespace RouteA) and a
later variant with URL validation and gateway-error classification (here
namespace RouteB).  The signature-header parser and the signature verifier
are textually identical in both variants, so they are embedded once.

JavaScript strings are modelled as List Char; the JavaScript number
produced by parseInt is modelled by JSNum (an integer or NaN); exceptions
are modelled with Except; the network and the HMAC-SHA256 primitive from
the node crypto library (external to this repository) are parameters of
the embedded functions.
-/

/-- JavaScript number as produced by parseInt: either NaN or an integer. -/
inductive JSNum where
  | nan : JSNum
  | int (n : Int) : JSNum
deriving DecidableEq

/-- A JavaScript runtime exception (only the data the code inspects). -/
inductive JsErr where
  | referenceError (msg : List Char) : JsErr
  | genericError (msg : List Char) : JsErr
deriving DecidableEq

/-- Whitespace characters recognised by JavaScript trim and parseInt. -/
def isJsWhitespace (c : Char) : Bool :=
  c = ' ' ∨ c = '\t' ∨ c = '\n' ∨ c = '\r' ∨ c = '\x0b' ∨ c = '\x0c' ∨ c = '\xa0'

/-- JavaScript String.prototype.split with a one-character separator. -/
def jsSplit (sep : Char) : List Char → List (List Char)
  | [] => [[]]
  | c :: cs =>
    if c = sep then [] :: jsSplit sep cs
    else
      match jsSplit sep cs with
      | [] => [[c]]
      | p :: ps => (c :: p) :: ps

/-- JavaScript String.prototype.trim. -/
def jsTrim (s : List Char) : List Char :=
  ((s.dropWhile isJsWhitespace).reverse.dropWhile isJsWhitespace).reverse

/-- JavaScript String.prototype.startsWith. -/
def listStartsWith : List Char → List Char → Bool
  | [], _ => true
  | _ :: _, [] => false
  | p :: ps, c :: cs => p = c && listStartsWith ps cs

/-- Value of one hexadecimal digit, if the character is one. -/
def hexDigitVal (c : Char) : Option Nat :=
  if '0' ≤ c ∧ c ≤ '9' then some (c.toNat - '0'.toNat)
  else if 'a' ≤ c ∧ c ≤ 'f' then some (c.toNat - 'a'.toNat + 10)
  else if 'A' ≤ c ∧ c ≤ 'F' then some (c.toNat - 'A'.toNat + 10)
  else none

/-- Node Buffer.from(s, hex): decode hex pairs from the left, stopping at
the first character pair that is not two hex digits (lenient decoding). -/
def hexDecode : List Char → List Nat
  | c1 :: c2 :: rest =>
    match hexDigitVal c1, hexDigitVal c2 with
    | some hi, some lo => (16 * hi + lo) :: hexDecode rest
    | _, _ => []
  | _ => []

/-- Longest leading run of decimal digits. -/
def leadingDigits : List Char → List Char
  | [] => []
  | c :: cs => if c.isDigit then c :: leadingDigits cs else []

/-- Numeric value of a list of decimal digits. -/
def digitsToNat (ds : List Char) : Nat :=
  ds.foldl (fun acc c => 10 * acc + (c.toNat - '0'.toNat)) 0

/-- JavaScript parseInt(s, 10): skip leading whitespace, read an optional
sign and then the longest run of decimal digits; NaN when no digit. -/
def jsParseInt (s : List Char) : JSNum :=
  let cs := s.dropWhile isJsWhitespace
  match cs with
  | '-' :: rest =>
    let ds := leadingDigits rest
    if ds.isEmpty then JSNum.nan else JSNum.int (-(digitsToNat ds : Int))
  | '+' :: rest =>
    let ds := leadingDigits rest
    if ds.isEmpty then JSNum.nan else JSNum.int (digitsToNat ds)
  | rest =>
    let ds := leadingDigits rest
    if ds.isEmpty then JSNum.nan else JSNum.int (digitsToNat ds)

/-- JavaScript string interpolation of a JSNum (template literal). -/
def jsNumToChars : JSNum → List Char
  | JSNum.nan => [ 'N', 'a', 'N' ]
  | JSNum.int n =>
    if n < 0 then '-' :: Nat.toDigits 10 n.natAbs else Nat.toDigits 10 n.natAbs

/-- interface SignatureEntry of the source: the timestamp is kept as the
raw string between t= and the next equals sign. -/
structure SignatureEntry where
  timestamp : List Char
  signature : List Char
deriving DecidableEq

/-- First loop of parseStripeSignatureHeader: scan the comma-separated
parts for the first trimmed part of the form t=value with value nonempty
(value is what stands between the first and second equals sign). -/
def firstTimestamp : List (List Char) → Option (List Char)
  | [] => none
  | p :: ps =>
    let trimmed := jsTrim p
    if listStartsWith [ 't', '=' ] trimmed then
      match (jsSplit '=' trimmed).get? 1 with
      | some v => if v.isEmpty then firstTimestamp ps else some v
      | none => firstTimestamp ps
    else firstTimestamp ps

/-- Second loop of parseStripeSignatureHeader: collect every trimmed part
of the form v1=value with value nonempty, pairing it with the timestamp. -/
def collectV1 (timestamp : List (Char)) : List (List Char) → List SignatureEntry
  | [] => []
  | p :: ps =>
    let trimmed := jsTrim p
    if listStartsWith [ 'v', '1', '=' ] trimmed then
      match (jsSplit '=' trimmed).get? 1 with
      | some v =>
        if v.isEmpty then collectV1 timestamp ps
        else ⟨timestamp, v⟩ :: collectV1 timestamp ps
      | none => collectV1 timestamp ps
    else collectV1 timestamp ps

/-- parseStripeSignatureHeader from the source: split on commas, extract
the first timestamp, collect all v1 signatures; empty result when either
the timestamp or all v1 entries are missing. -/
def parseStripeSignatureHeader (signatureHeader : List Char) : List SignatureEntry :=
  let parts := jsSplit ',' signatureHeader
  match firstTimestamp parts with
  | none => []
  | some timestamp =>
    let entries := collectV1 timestamp parts
    if entries.isEmpty then [] else entries

/-- The tolerance test of the verifier: Math.abs(now - timestamp) > 300.
A NaN timestamp makes the comparison false, so the candidate is not
rejected by this test. -/
def timestampRejected (now : Int) : JSNum → Bool
  | JSNum.nan => false
  | JSNum.int ts => 300 < (now - ts).natAbs

/-- Outcome record of verifyStripeSignature. -/
structure VerificationOutcome where
  valid : Bool
  timestamp : Option JSNum
deriving DecidableEq

/-- The candidate loop of verifyStripeSignature.  hmacHex models the node
crypto computation hex(HMAC-SHA256(secret, message)) and may raise. -/
def verifyLoop (hmacHex : List Char → List Char → Except JsErr (List Char))
    (now : Int) (rawBody secret : List Char) :
    List SignatureEntry → Except JsErr (Option JSNum)
  | [] => Except.ok none
  | entry :: rest =>
    let timestamp := jsParseInt entry.timestamp
    if timestampRejected now timestamp then
      verifyLoop hmacHex now rawBody secret rest
    else
      match hmacHex secret (jsNumToChars timestamp ++ '.' :: rawBody) with
      | Except.error e => Except.error e
      | Except.ok expectedSignature =>
        let expectedBuffer := hexDecode expectedSignature
        let receivedBuffer := hexDecode entry.signature
        if expectedBuffer.length ≠ receivedBuffer.length then
          verifyLoop hmacHex now rawBody secret rest
        else if expectedBuffer = receivedBuffer then
          Except.ok (some timestamp)
        else
          verifyLoop hmacHex now rawBody secret rest

/-- Body of the try block of verifyStripeSignature. -/
def verifyTryBody (hmacHex : List Char → List Char → Except JsErr (List Char))
    (now : Int) (rawBody signatureHeader secret : List Char) :
    Except JsErr VerificationOutcome :=
  let entries := parseStripeSignatureHeader signatureHeader
  if entries.isEmpty then Except.ok ⟨false, none⟩
  else
    match verifyLoop hmacHex now rawBody secret entries with
    | Except.error e => Except.error e
    | Except.ok (some ts) => Except.ok ⟨true, some ts⟩
    | Except.ok none => Except.ok ⟨false, none⟩

/-- verifyStripeSignature from the source: the try body with the catch
that downgrades any exception to an invalid outcome. -/
def verifyStripeSignature (hmacHex : List Char → List Char → Except JsErr (List Char))
    (now : Int) (rawBody signatureHeader secret : List Char) : VerificationOutcome :=
  match verifyTryBody hmacHex now rawBody signatureHeader secret with
  | Except.ok r => r
  | Except.error _ => ⟨false, none⟩

/-- Wrap a pure HMAC-hex function as a non-raising computation. -/
def okHmac (h : List Char → List Char → List Char) :
    List Char → List Char → Except JsErr (List Char) :=
  fun s m => Except.ok (h s m)

/-- Falsiness of a possibly-absent JavaScript string: undefined and the
empty string are falsy. -/
def optFalsy : Option (List Char) → Bool
  | none => true
  | some s => s.isEmpty

/-- Result of the URL constructor, as far as the code inspects it. -/
structure URLParts where
  protocol : List Char
  hostname : List Char
  pathname : List Char
deriving DecidableEq

/-- The cause field attached to a fetch failure. -/
structure CauseLike where
  code : Option (List Char)
  errno : Option Int
  syscall : Option (List Char)
deriving DecidableEq

/-- Behaviour of one outbound fetch: either a response with a status, or a
thrown error (timeout abort, DNS, TLS, connection reset, ...). -/
inductive FetchOutcome where
  | response (status : Nat) (bodyText : Option (List Char)) : FetchOutcome
  | thrown (name message : List Char) (cause : Option CauseLike) : FetchOutcome
deriving DecidableEq

/-- The outbound request handed to fetch. -/
structure OutboundRequest where
  url : List Char
  headers : List (List Char × List Char)
  body : List Char
deriving DecidableEq

/-- Headers are built as a JavaScript object with distinct keys; lookup in
insertion order. -/
def lookupHeader (name : List Char) : List (List Char × List Char) → Option (List Char)
  | [] => none
  | h :: hs => if h.1 = name then some h.2 else lookupHeader name hs

/-- JSON body of a handler response, by shape (the code builds these with
JSON.stringify over fixed object shapes). -/
inductive RespBody where
  | okTrue : RespBody
  | err (msg : List Char) : RespBody
  | errWithDetails (msg name message : List Char) (causeCode : Option (List Char)) : RespBody
deriving DecidableEq

/-- A handler response: HTTP status and JSON body shape. -/
structure HttpResponse where
  status : Nat
  body : RespBody
deriving DecidableEq

/-- An inbound POST request as far as the handlers inspect it: the result
of await request.text() (which may raise), and the stripe-signature and
content-type headers. -/
structure InboundRequest where
  bodyText : Except JsErr (List Char)
  stripeSignature : Option (List Char)
  contentType : Option (List Char)

namespace RouteA

/-- Environment variables read by the first route variant. -/
structure Env where
  supabaseInternalWebhookUrl : Option (List Char)
  supabaseServiceRoleKey : Option (List Char)
  internalWebhookSharedSecret : Option (List Char)
  stripeWebhookSecret : Option (List Char)

/-- Result type of the first variant's forwardToSupabase:
success with status, failure with status, or bare failure (missing
configuration or thrown fetch). -/
inductive ForwardResult where
  | success (status : Nat) : ForwardResult
  | failStatus (status : Nat) : ForwardResult
  | fail : ForwardResult
deriving DecidableEq

/-- The header object built by the first variant's forwardToSupabase:
fixed JSON content type, bearer credential, the optional shared secret,
and the forwarded stripe-signature, in insertion order. -/
def requestHeaders (env : Env) (stripeSignature : List Char) :
    List (List Char × List Char) :=
  let baseHeaders : List (List Char × List Char) :=
    [ ( "Content-Type".data, "application/json".data ),
      ( "Authorization".data, "Bearer ".data ++ env.supabaseServiceRoleKey.getD [] ) ]
  let withSecret :=
    if optFalsy env.internalWebhookSharedSecret then baseHeaders
    else baseHeaders ++
      [ ( "x-internal-webhook-secret".data, env.internalWebhookSharedSecret.getD [] ) ]
  withSecret ++ [ ( "stripe-signature".data, stripeSignature ) ]

/-- The outbound request the first variant hands to fetch. -/
def builtRequest (env : Env) (rawBody stripeSignature : List Char) : OutboundRequest :=
  ⟨env.supabaseInternalWebhookUrl.getD [], requestHeaders env stripeSignature, rawBody⟩

/-- forwardToSupabase of the first variant.  fetched models the network:
it maps the issued request to what fetch does with it.  The second
component records the outbound request, if one was issued. -/
def forwardToSupabase (env : Env) (fetched : OutboundRequest → FetchOutcome)
    (rawBody stripeSignature : List Char) :
    ForwardResult × Option OutboundRequest :=
  if optFalsy env.supabaseInternalWebhookUrl ∨ optFalsy env.supabaseServiceRoleKey then
    (ForwardResult.fail, none)
  else
    let req := builtRequest env rawBody stripeSignature
    match fetched req with
    | FetchOutcome.response status _ =>
      if 200 ≤ status ∧ status ≤ 299 then (ForwardResult.success status, some req)
      else (ForwardResult.failStatus status, some req)
    | FetchOutcome.thrown _ _ _ => (ForwardResult.fail, some req)

/-- POST handler of the first variant.  All statements are inside its try
block; a failure of request.text() is caught and answered 500. -/
def POST (env : Env) (hmacHex : List Char → List Char → Except JsErr (List Char))
    (now : Int) (fetched : OutboundRequest → FetchOutcome)
    (request : InboundRequest) : HttpResponse × Option OutboundRequest :=
  match request.bodyText with
  | Except.error _ => (⟨500, RespBody.err "Internal server error".data ⟩, none)
  | Except.ok rawBody =>
    if optFalsy request.stripeSignature then
      (⟨400, RespBody.err "Missing stripe-signature header".data ⟩, none)
    else
      let stripeSignature := request.stripeSignature.getD []
      if optFalsy env.stripeWebhookSecret then
        (⟨500, RespBody.err "Server configuration error".data ⟩, none)
      else
        let webhookSecret := env.stripeWebhookSecret.getD []
        let verification := verifyStripeSignature hmacHex now rawBody stripeSignature webhookSecret
        if verification.valid then
          match forwardToSupabase env fetched rawBody stripeSignature with
          | (ForwardResult.success _, r) => (⟨200, RespBody.okTrue⟩, r)
          | (ForwardResult.failStatus _, r) =>
            (⟨500, RespBody.err "Failed to forward webhook".data ⟩, r)
          | (ForwardResult.fail, r) =>
            (⟨500, RespBody.err "Failed to forward webhook".data ⟩, r)
        else
          (⟨400, RespBody.err "Invalid signature".data ⟩, none)

end RouteA

namespace RouteB

/-- Environment variables read by the second route variant. -/
structure Env where
  supabaseInternalWebhookUrl : Option (List Char)
  internalWebhookSharedSecret : Option (List Char)
  internalEdgeAuthToken : Option (List Char)
  stripeWebhookSecret : Option (List Char)
  supabasePingMode : Option (List Char)

/-- ForwardResult of the second variant: success with status; plain
non-2xx failure with status; configuration failure carrying forwardError;
gateway failure carrying status 502 and the error details. -/
inductive ForwardResult where
  | success (status : Nat) : ForwardResult
  | failStatus (status : Nat) : ForwardResult
  | failConfig (forwardError : List Char) : ForwardResult
  | failGateway (status : Nat) (name message : List Char) (causeCode : Option (List Char)) : ForwardResult
deriving DecidableEq

/-- The causeCode computed in the catch block of the second variant's
forwardToSupabase: cause code, else errno rendered as a string, else the
syscall name. -/
def causeCodeOf : Option CauseLike → Option (List Char)
  | none => none
  | some c =>
    match c.code with
    | some s => some s
    | none =>
      match c.errno with
      | some n => some (jsNumToChars (JSNum.int n))
      | none => c.syscall

/-- The header object built by the second variant's forwardToSupabase:
content type preserved from the inbound request (defaulting to JSON), the
forwarded stripe-signature under both spellings, the bearer credential and
the optional shared secret, in insertion order. -/
def requestHeaders (env : Env) (stripeSignature contentType : List Char) :
    List (List Char × List Char) :=
  let baseHeaders : List (List Char × List Char) :=
    [ ( "Content-Type".data,
        if contentType.isEmpty then "application/json".data else contentType ),
      ( "stripe-signature".data, stripeSignature ),
      ( "Stripe-Signature".data, stripeSignature ),
      ( "authorization".data, "Bearer ".data ++ (env.internalEdgeAuthToken.map jsTrim).getD [] ) ]
  if optFalsy env.internalWebhookSharedSecret then baseHeaders
  else baseHeaders ++
    [ ( "x-internal-webhook-secret".data, env.internalWebhookSharedSecret.getD [] ) ]

/-- The outbound request the second variant hands to fetch: the trimmed
destination URL, the headers above, and either the raw body or the
synthetic ping body. -/
def builtRequest (env : Env) (rawBody stripeSignature contentType pingBody : List Char)
    (pingMode : Bool) : OutboundRequest :=
  ⟨(env.supabaseInternalWebhookUrl.map jsTrim).getD [],
    requestHeaders env stripeSignature contentType,
    if pingMode then pingBody else rawBody⟩

/-- forwardToSupabase of the second variant.  parseURL models the URL
constructor (none when it throws), pingBody the synthetic ping payload,
fetched the network. -/
def forwardToSupabase (env : Env) (parseURL : List Char → Option URLParts)
    (pingBody : List Char) (fetched : OutboundRequest → FetchOutcome)
    (rawBody stripeSignature contentType : List Char) (pingMode : Bool) :
    ForwardResult × Option OutboundRequest :=
  let supabaseUrl := (env.supabaseInternalWebhookUrl.map jsTrim).getD []
  let internalEdgeToken := env.internalEdgeAuthToken.map jsTrim
  if optFalsy internalEdgeToken then
    (ForwardResult.failConfig "INTERNAL_EDGE_AUTH_TOKEN missing".data, none)
  else if supabaseUrl.isEmpty then
    (ForwardResult.failConfig "Server configuration error".data, none)
  else
    match parseURL supabaseUrl with
    | none =>
      (ForwardResult.failConfig "Invalid SUPABASE_INTERNAL_WEBHOOK_URL".data, none)
    | some parsedUrl =>
      if parsedUrl.protocol ≠ "https:".data then
        (ForwardResult.failConfig "SUPABASE_INTERNAL_WEBHOOK_URL must use https protocol".data, none)
      else
        let req := builtRequest env rawBody stripeSignature contentType pingBody pingMode
        match fetched req with
        | FetchOutcome.response status _ =>
          if 200 ≤ status ∧ status ≤ 299 then (ForwardResult.success status, some req)
          else (ForwardResult.failStatus status, some req)
        | FetchOutcome.thrown name message cause =>
          (ForwardResult.failGateway 502 name message (causeCodeOf cause), some req)

/-- The content type the second variant's POST forwards: the inbound one
when present and nonempty, JSON otherwise. -/
def contentTypeOf (request : InboundRequest) : List Char :=
  match request.contentType with
  | some ct => if ct.isEmpty then "application/json".data else ct
  | none => "application/json".data

/-- Ping mode of the second variant: on exactly when the environment
variable is the string true. -/
def pingModeOf (env : Env) : Bool := env.supabasePingMode = some "true".data

/-- Body of the try block of the second variant's POST handler. -/
def handle (env : Env) (hmacHex : List Char → List Char → Except JsErr (List Char))
    (now : Int) (parseURL : List Char → Option URLParts) (pingBody : List Char)
    (fetched : OutboundRequest → FetchOutcome)
    (request : InboundRequest) : HttpResponse × Option OutboundRequest :=
  match request.bodyText with
  | Except.error _ => (⟨500, RespBody.err "Internal server error".data ⟩, none)
  | Except.ok rawBody =>
    if optFalsy request.stripeSignature then
      (⟨400, RespBody.err "Missing stripe-signature header".data ⟩, none)
    else
      let stripeSignature := request.stripeSignature.getD []
      if optFalsy env.stripeWebhookSecret then
        (⟨500, RespBody.err "Server configuration error".data ⟩, none)
      else
        let webhookSecret := env.stripeWebhookSecret.getD []
        let verification := verifyStripeSignature hmacHex now rawBody stripeSignature webhookSecret
        if verification.valid then
          match forwardToSupabase env parseURL pingBody fetched rawBody stripeSignature
            (contentTypeOf request) (pingModeOf env) with
          | (ForwardResult.success _, r) => (⟨200, RespBody.okTrue⟩, r)
          | (ForwardResult.failGateway st name message causeCode, r) =>
            (⟨st, RespBody.errWithDetails "Failed to forward to Supabase".data name message causeCode⟩, r)
          | (ForwardResult.failConfig msg, r) => (⟨500, RespBody.err msg⟩, r)
          | (ForwardResult.failStatus _, r) =>
            (⟨500, RespBody.err "Failed to forward webhook".data ⟩, r)
        else
          (⟨400, RespBody.err "Invalid signature".data ⟩, none)

/-- The first statement of the second variant's POST handler evaluates
randomUUID(), but randomUUID is neither imported from the crypto module
nor defined anywhere in the file, so the reference raises a
ReferenceError, and it does so before the try block is entered. -/
def randomUUIDCall : Except JsErr (List Char) :=
  Except.error (JsErr.referenceError "randomUUID is not defined".data )

/-- POST handler of the second variant: the requestId computation runs
before the try block, so an exception there propagates to the host. -/
def POST (env : Env) (hmacHex : List Char → List Char → Except JsErr (List Char))
    (now : Int) (parseURL : List Char → Option URLParts) (pingBody : List Char)
    (fetched : OutboundRequest → FetchOutcome)
    (request : InboundRequest) :
    Except JsErr (HttpResponse × Option OutboundRequest) :=
  match randomUUIDCall with
  | Except.error e => Except.error e
  | Except.ok _ => Except.ok (handle env hmacHex now parseURL pingBody fetched request)

end RouteB

/-! ## Helper lemmas about the candidate loop -/

/-- A candidate whose timestamp is rejected, or whose hex decoding differs
from that of the expected digest, makes the loop move on to the rest. -/
theorem verifyLoop_head_skip
    (hmac : List Char → List Char → List Char) (now : Int) (P S : List Char)
    (rest : List SignatureEntry) (e : SignatureEntry)
    (h : timestampRejected now (jsParseInt e.timestamp) = true ∨
      hexDecode e.signature ≠
        hexDecode (hmac S (jsNumToChars (jsParseInt e.timestamp) ++ '.' :: P))) :
    verifyLoop (okHmac hmac) now P S (e :: rest) =
      verifyLoop (okHmac hmac) now P S rest := by
  cases h with
  | inl hrej => simp [verifyLoop, hrej]
  | inr hm =>
    cases hrej : timestampRejected now (jsParseInt e.timestamp) with
    | true => simp [verifyLoop, hrej]
    | false =>
      by_cases hlen :
          (hexDecode (hmac S (jsNumToChars (jsParseInt e.timestamp) ++ '.' :: P))).length =
            (hexDecode e.signature).length
      · have hne : hexDecode (hmac S (jsNumToChars (jsParseInt e.timestamp) ++ '.' :: P)) ≠
            hexDecode e.signature := fun hx => hm hx.symm
        simp [verifyLoop, hrej, okHmac, hlen, hne]
      · simp [verifyLoop, hrej, okHmac, hlen]

/-- A candidate that passes both the tolerance check and the buffer
comparison makes the loop return immediately with its timestamp. -/
theorem verifyLoop_head_match
    (hmac : List Char → List Char → List Char) (now : Int) (P S : List Char)
    (rest : List SignatureEntry) (e : SignatureEntry)
    (hrej : timestampRejected now (jsParseInt e.timestamp) = false)
    (hm : hexDecode e.signature =
      hexDecode (hmac S (jsNumToChars (jsParseInt e.timestamp) ++ '.' :: P))) :
    verifyLoop (okHmac hmac) now P S (e :: rest) =
      Except.ok (some (jsParseInt e.timestamp)) := by
  have hlen :
      (hexDecode (hmac S (jsNumToChars (jsParseInt e.timestamp) ++ '.' :: P))).length =
        (hexDecode e.signature).length := by rw [hm]
  simp [verifyLoop, hrej, okHmac, hlen, hm.symm]

/-- If every candidate carries an integer timestamp more than 300 seconds
away from now, the loop rejects all of them. -/
theorem verifyLoop_all_stale
    (hmacHex : List Char → List Char → Except JsErr (List Char))
    (now : Int) (rawBody secret : List Char) :
    ∀ entries : List SignatureEntry,
      (∀ e ∈ entries, ∃ t : Int, jsParseInt e.timestamp = JSNum.int t ∧
        300 < (now - t).natAbs) →
      verifyLoop hmacHex now rawBody secret entries = Except.ok none := by
  intro entries
  induction entries with
  | nil => intro _; rfl
  | cons e rest ih =>
    intro h
    obtain ⟨t, ht, hgt⟩ := h e (List.mem_cons_self e rest)
    have hrej : timestampRejected now (jsParseInt e.timestamp) = true := by
      rw [ht]
      simp only [timestampRejected, decide_eq_true_eq]
      exact hgt
    have hrest := ih (fun x hx => h x (List.mem_cons_of_mem e hx))
    simp [verifyLoop, hrej, hrest]

/-- If some candidate in the list passes both checks, the loop ends with a
match (the earliest passing candidate in parse order). -/
theorem verifyLoop_first_match
    (hmac : List Char → List Char → List Char) (now : Int) (P S : List Char) :
    ∀ entries : List SignatureEntry,
      (∃ e ∈ entries, timestampRejected now (jsParseInt e.timestamp) = false ∧
        hexDecode e.signature =
          hexDecode (hmac S (jsNumToChars (jsParseInt e.timestamp) ++ '.' :: P))) →
      ∃ t : JSNum, verifyLoop (okHmac hmac) now P S entries = Except.ok (some t) := by
  intro entries
  induction entries with
  | nil =>
    rintro ⟨e, he, _⟩
    exact absurd he (List.not_mem_nil e)
  | cons a rest ih =>
    rintro ⟨e, he, hrej, hm⟩
    by_cases hmatchHead : timestampRejected now (jsParseInt a.timestamp) = false ∧
        hexDecode a.signature =
          hexDecode (hmac S (jsNumToChars (jsParseInt a.timestamp) ++ '.' :: P))
    · exact ⟨jsParseInt a.timestamp,
        verifyLoop_head_match hmac now P S rest a hmatchHead.1 hmatchHead.2⟩
    · have hskip := verifyLoop_head_skip hmac now P S rest a (by
        rcases Decidable.not_and_iff_or_not.mp hmatchHead with h1 | h2
        · exact Or.inl (by
            cases hx : timestampRejected now (jsParseInt a.timestamp) with
            | true => rfl
            | false => exact absurd hx h1)
        · exact Or.inr h2)
      have hea : e ≠ a := by
        intro hx
        exact hmatchHead (by rw [← hx]; exact ⟨hrej, hm⟩)
      have he' : e ∈ rest := by
        rcases List.mem_cons.mp he with h | h
        · exact absurd h hea
        · exact h
      obtain ⟨t, hloop⟩ := ih ⟨e, he', hrej, hm⟩
      exact ⟨t, by rw [hskip, hloop]⟩

/-! ## C1 -/

/-- C1: a candidate whose integer timestamp is within 300 seconds of now
and whose value is exactly the hex HMAC digest of timestamp.payload makes
verifyStripeSignature return valid; a header all of whose candidates carry
integer timestamps more than 300 seconds away verifies as invalid. -/
theorem verify_tolerance_window
    (hmac : List Char → List Char → List Char) (now ts : Int)
    (P S hdr tsStr v : List Char) :
    ((⟨tsStr, v⟩ : SignatureEntry) ∈ parseStripeSignatureHeader hdr →
      jsParseInt tsStr = JSNum.int ts →
      (now - ts).natAbs ≤ 300 →
      v = hmac S (jsNumToChars (JSNum.int ts) ++ '.' :: P) →
      (verifyStripeSignature (okHmac hmac) now P hdr S).valid = true)
    ∧ ((∀ e ∈ parseStripeSignatureHeader hdr,
          ∃ t : Int, jsParseInt e.timestamp = JSNum.int t ∧ 300 < (now - t).natAbs) →
      (verifyStripeSignature (okHmac hmac) now P hdr S).valid = false) := by
  constructor
  · intro hmem hts htol hv
    have hrej : timestampRejected now (jsParseInt tsStr) = false := by
      rw [hts]
      simp only [timestampRejected, decide_eq_false_iff_not, Nat.not_lt]
      exact htol
    have hm : hexDecode v =
        hexDecode (hmac S (jsNumToChars (jsParseInt tsStr) ++ '.' :: P)) := by
      rw [hts, hv]
    obtain ⟨t, hloop⟩ := verifyLoop_first_match hmac now P S
      (parseStripeSignatureHeader hdr) ⟨⟨tsStr, v⟩, hmem, hrej, hm⟩
    have hne : (parseStripeSignatureHeader hdr).isEmpty = false := by
      cases hp : parseStripeSignatureHeader hdr with
      | nil => rw [hp] at hmem; exact absurd hmem (List.not_mem_nil _)
      | cons a l => rfl
    simp [verifyStripeSignature, verifyTryBody, hne, hloop]
  · intro hall
    have hloop := verifyLoop_all_stale (okHmac hmac) now P S
      (parseStripeSignatureHeader hdr) hall
    cases hne : (parseStripeSignatureHeader hdr).isEmpty with
    | true => simp [verifyStripeSignature, verifyTryBody, hne]
    | false => simp [verifyStripeSignature, verifyTryBody, hne, hloop]

/-- Witness for C1 at concrete inputs: a fresh timestamp with the right
digest verifies; a timestamp 301 seconds old does not. -/
theorem verify_tolerance_window_witness :
    (verifyStripeSignature (okHmac (fun _ _ => "ab".data )) 5 "p".data
      "t=5,v1=ab".data "s".data ).valid = true ∧
    (verifyStripeSignature (okHmac (fun _ _ => "ab".data )) 602 "p".data
      "t=301,v1=ab".data "s".data ).valid = false := by
  constructor
  · exact (verify_tolerance_window (fun _ _ => "ab".data ) 5 5 "p".data "s".data
      "t=5,v1=ab".data "5".data "ab".data ).1
      (by decide) (by decide) (by decide) (by decide)
  · refine (verify_tolerance_window (fun _ _ => "ab".data ) 602 0 "p".data "s".data
      "t=301,v1=ab".data [] [] ).2 ?_
    intro e he
    have hp : parseStripeSignatureHeader ( "t=301,v1=ab".data ) =
        [ ⟨ "301".data, "ab".data ⟩ ] := by decide
    rw [hp] at he
    have he' : e = ⟨ "301".data, "ab".data ⟩ := by simpa using he
    rw [he']
    exact ⟨301, by decide, by decide⟩

/-! ## C7 -/

/-- C7: with one fresh timestamp and two v1 values, the first wrong (its
hex decoding differs from the digest) and the second the expected digest,
verification succeeds with that timestamp; in general the first candidate
that passes both checks makes the loop return at once. -/
theorem verify_rotation
    (hmac : List Char → List Char → List Char) (now ts : Int)
    (P S hdr tsStr w v : List Char) :
    (parseStripeSignatureHeader hdr = [⟨tsStr, w⟩, ⟨tsStr, v⟩] →
      jsParseInt tsStr = JSNum.int ts →
      (now - ts).natAbs ≤ 300 →
      hexDecode w ≠ hexDecode (hmac S (jsNumToChars (JSNum.int ts) ++ '.' :: P)) →
      v = hmac S (jsNumToChars (JSNum.int ts) ++ '.' :: P) →
      verifyStripeSignature (okHmac hmac) now P hdr S =
        ⟨true, some (JSNum.int ts)⟩)
    ∧ (∀ (rest : List SignatureEntry) (e : SignatureEntry),
        timestampRejected now (jsParseInt e.timestamp) = false →
        hexDecode e.signature =
          hexDecode (hmac S (jsNumToChars (jsParseInt e.timestamp) ++ '.' :: P)) →
        verifyLoop (okHmac hmac) now P S (e :: rest) =
          Except.ok (some (jsParseInt e.timestamp))) := by
  constructor
  · intro hp hts htol hwne hv
    have hrej : timestampRejected now (jsParseInt tsStr) = false := by
      rw [hts]
      simp only [timestampRejected, decide_eq_false_iff_not, Nat.not_lt]
      exact htol
    have hskip := verifyLoop_head_skip hmac now P S [⟨tsStr, v⟩] ⟨tsStr, w⟩
      (Or.inr (by show hexDecode w ≠ _; rw [hts]; exact hwne))
    have hmatch := verifyLoop_head_match hmac now P S [] ⟨tsStr, v⟩ hrej
      (by show hexDecode v = _; rw [hts, hv])
    have hloop : verifyLoop (okHmac hmac) now P S
        (parseStripeSignatureHeader hdr) = Except.ok (some (JSNum.int ts)) := by
      rw [hp, hskip, hmatch, hts]
    have hne : (parseStripeSignatureHeader hdr).isEmpty = false := by rw [hp]; rfl
    simp [verifyStripeSignature, verifyTryBody, hne, hloop]
  · intro rest e hrej hm
    exact verifyLoop_head_match hmac now P S rest e hrej hm

/-- Witness for C7: header with a wrong v1 value before the right one. -/
theorem verify_rotation_witness :
    verifyStripeSignature (okHmac (fun _ _ => "ab".data )) 5 "p".data
      "t=5,v1=aa,v1=ab".data "s".data = ⟨true, some (JSNum.int 5)⟩ ∧
    verifyLoop (okHmac (fun _ _ => "ab".data )) 5 "p".data "s".data
      [ ⟨ "5".data, "ab".data ⟩, ⟨ "5".data, "zz".data ⟩ ] =
      Except.ok (some (JSNum.int 5)) := by
  constructor
  · exact (verify_rotation (fun _ _ => "ab".data ) 5 5 "p".data "s".data
      "t=5,v1=aa,v1=ab".data "5".data "aa".data "ab".data ).1
      (by decide) (by decide) (by decide) (by decide) (by decide)
  · have h := (verify_rotation (fun _ _ => "ab".data ) 5 5 "p".data "s".data
      [] [] [] [] ).2 [ ⟨ "5".data, "zz".data ⟩ ] ⟨ "5".data, "ab".data ⟩
      (by decide) (by decide)
    simpa using h

/-! ## C8 -/

/-- When no comma-separated part trims to a string starting with t=, the
timestamp scan finds nothing. -/
theorem firstTimestamp_none (parts : List (List Char))
    (h : ∀ p ∈ parts, listStartsWith [ 't', '=' ] (jsTrim p) = false) :
    firstTimestamp parts = none := by
  induction parts with
  | nil => rfl
  | cons p ps ih =>
    have hp := h p (List.mem_cons_self p ps)
    have hrest := ih (fun x hx => h x (List.mem_cons_of_mem p hx))
    simp [firstTimestamp, hp, hrest]

/-- When no comma-separated part trims to a string starting with v1=, the
signature scan collects nothing. -/
theorem collectV1_none (ts : List Char) (parts : List (List Char))
    (h : ∀ p ∈ parts, listStartsWith [ 'v', '1', '=' ] (jsTrim p) = false) :
    collectV1 ts parts = [] := by
  induction parts with
  | nil => rfl
  | cons p ps ih =>
    have hp := h p (List.mem_cons_self p ps)
    have hrest := ih (fun x hx => h x (List.mem_cons_of_mem p hx))
    simp [collectV1, hp, hrest]

/-- C8: a header without a t= part parses to no candidates no matter how
many v1= parts it has; a header without v1= parts parses to no candidates
even when a timestamp is present; and an empty candidate set makes the
verification outcome invalid. -/
theorem parse_header_empty_cases
    (hmacHex : List Char → List Char → Except JsErr (List Char))
    (now : Int) (P S hdr : List Char) :
    ((∀ p ∈ jsSplit ',' hdr, listStartsWith [ 't', '=' ] (jsTrim p) = false) →
      parseStripeSignatureHeader hdr = [])
    ∧ ((∀ p ∈ jsSplit ',' hdr, listStartsWith [ 'v', '1', '=' ] (jsTrim p) = false) →
      parseStripeSignatureHeader hdr = [])
    ∧ (parseStripeSignatureHeader hdr = [] →
      verifyStripeSignature hmacHex now P hdr S = ⟨false, none⟩) := by
  refine ⟨?_, ?_, ?_⟩
  · intro h
    simp only [parseStripeSignatureHeader]
    rw [firstTimestamp_none (jsSplit ',' hdr) h]
  · intro h
    simp only [parseStripeSignatureHeader]
    cases hts : firstTimestamp (jsSplit ',' hdr) with
    | none => rfl
    | some ts =>
      have hc := collectV1_none ts (jsSplit ',' hdr) h
      simp [hc]
  · intro hp
    simp [verifyStripeSignature, verifyTryBody, hp]

/-- Witness for C8: a header with only v1 parts, a header with a
timestamp and no v1 part, and an unparseable header that verifies
invalid. -/
theorem parse_header_empty_cases_witness :
    parseStripeSignatureHeader ( "v1=ab,v1=cd".data ) = [] ∧
    parseStripeSignatureHeader ( "t=9,v2=zz".data ) = [] ∧
    verifyStripeSignature (okHmac (fun _ _ => "ab".data )) 0 "p".data
      "junk".data "s".data = ⟨false, none⟩ := by
  refine ⟨?_, ?_, ?_⟩
  · exact (parse_header_empty_cases (okHmac (fun _ _ => "ab".data )) 0 "p".data
      "s".data "v1=ab,v1=cd".data ).1 (by decide)
  · exact (parse_header_empty_cases (okHmac (fun _ _ => "ab".data )) 0 "p".data
      "s".data "t=9,v2=zz".data ).2.1 (by decide)
  · exact (parse_header_empty_cases (okHmac (fun _ _ => "ab".data )) 0 "p".data
      "s".data "junk".data ).2.2 (by decide)

/-! ## C9 -/

/-- C9: verifyStripeSignature always returns an outcome record, and any
exception raised inside its try body is downgraded to an invalid
outcome. -/
theorem verify_total_catches
    (hmacHex : List Char → List Char → Except JsErr (List Char))
    (now : Int) (rawBody hdr secret : List Char) :
    (∃ r : VerificationOutcome,
      verifyStripeSignature hmacHex now rawBody hdr secret = r)
    ∧ (∀ e : JsErr, verifyTryBody hmacHex now rawBody hdr secret = Except.error e →
      verifyStripeSignature hmacHex now rawBody hdr secret = ⟨false, none⟩) := by
  constructor
  · exact ⟨_, rfl⟩
  · intro e he
    simp [verifyStripeSignature, he]

/-- Witness for C9: a raising HMAC computation yields an invalid outcome
rather than a fault. -/
theorem verify_total_catches_witness :
    verifyStripeSignature (fun _ _ => Except.error (JsErr.genericError "boom".data ))
      0 "p".data "t=0,v1=ab".data "s".data = ⟨false, none⟩ :=
  (verify_total_catches (fun _ _ => Except.error (JsErr.genericError "boom".data ))
    0 "p".data "t=0,v1=ab".data "s".data ).2
    (JsErr.genericError "boom".data ) rfl

/-! ## C10 -/

/-- On candidates whose timestamp string does not parse to a number, the
loop never rejects on time and matches exactly when some candidate's hex
decoding equals that of the digest of NaN.payload. -/
theorem verifyLoop_nan
    (hmac : List Char → List Char → List Char) (now : Int) (P S : List Char) :
    ∀ entries : List SignatureEntry,
      (∀ e ∈ entries, jsParseInt e.timestamp = JSNum.nan) →
      ((∃ e ∈ entries, hexDecode e.signature =
          hexDecode (hmac S ( "NaN.".data ++ P))) →
        verifyLoop (okHmac hmac) now P S entries = Except.ok (some JSNum.nan))
      ∧ ((∀ e ∈ entries, hexDecode e.signature ≠
          hexDecode (hmac S ( "NaN.".data ++ P))) →
        verifyLoop (okHmac hmac) now P S entries = Except.ok none) := by
  intro entries
  induction entries with
  | nil =>
    intro _
    refine ⟨?_, ?_⟩
    · rintro ⟨e, he, _⟩
      exact absurd he (List.not_mem_nil e)
    · intro _; rfl
  | cons a rest ih =>
    intro hnan
    have hna := hnan a (List.mem_cons_self a rest)
    have ihr := ih (fun x hx => hnan x (List.mem_cons_of_mem a hx))
    have hdigest : hmac S (jsNumToChars (jsParseInt a.timestamp) ++ '.' :: P) =
        hmac S ( "NaN.".data ++ P) := by rw [hna]; rfl
    have hrej : timestampRejected now (jsParseInt a.timestamp) = false := by
      rw [hna]; rfl
    refine ⟨?_, ?_⟩
    · rintro ⟨e, he, hm⟩
      by_cases hma : hexDecode a.signature = hexDecode (hmac S ( "NaN.".data ++ P))
      · have := verifyLoop_head_match hmac now P S rest a hrej (by rw [hdigest]; exact hma)
        rw [this, hna]
      · have hskip := verifyLoop_head_skip hmac now P S rest a
          (Or.inr (by rw [hdigest]; exact hma))
        have he' : e ∈ rest := by
          rcases List.mem_cons.mp he with h | h
          · exact absurd (h ▸ hm) hma
          · exact h
        rw [hskip]
        exact ihr.1 ⟨e, he', hm⟩
    · intro hall
      have hma := hall a (List.mem_cons_self a rest)
      have hskip := verifyLoop_head_skip hmac now P S rest a
        (Or.inr (by rw [hdigest]; exact hma))
      rw [hskip]
      exact ihr.2 (fun x hx => hall x (List.mem_cons_of_mem a hx))

/-- C10: when the t= value is non-numeric every candidate carries NaN; the
tolerance test never rejects it, and at any current time verification
succeeds exactly when some candidate hex-decodes to the digest bytes of
the NaN-prefixed payload. -/
theorem verify_nan_timestamp
    (hmac : List Char → List Char → List Char) (now : Int) (P S hdr : List Char) :
    parseStripeSignatureHeader hdr ≠ [] →
    (∀ e ∈ parseStripeSignatureHeader hdr, jsParseInt e.timestamp = JSNum.nan) →
    ((verifyStripeSignature (okHmac hmac) now P hdr S).valid = true ↔
      ∃ e ∈ parseStripeSignatureHeader hdr,
        hexDecode e.signature = hexDecode (hmac S ( "NaN.".data ++ P))) := by
  intro hne hnan
  have hloop := verifyLoop_nan hmac now P S (parseStripeSignatureHeader hdr) hnan
  have hisempty : (parseStripeSignatureHeader hdr).isEmpty = false := by
    cases hp : parseStripeSignatureHeader hdr with
    | nil => exact absurd hp hne
    | cons a l => rfl
  constructor
  · intro hvalid
    by_contra hno
    push_neg at hno
    have h2 := hloop.2 hno
    rw [show (verifyStripeSignature (okHmac hmac) now P hdr S).valid = false by
      simp [verifyStripeSignature, verifyTryBody, hisempty, h2]] at hvalid
    exact Bool.false_ne_true hvalid
  · intro hex
    have h1 := hloop.1 hex
    simp [verifyStripeSignature, verifyTryBody, hisempty, h1]

/-- Witness for C10: a header whose timestamp is the letter x verifies at
an arbitrary late time when the candidate matches the NaN digest. -/
theorem verify_nan_timestamp_witness :
    (verifyStripeSignature (okHmac (fun _ _ => "ab".data )) 999999 "p".data
      "t=x,v1=ab".data "s".data ).valid = true :=
  (verify_nan_timestamp (fun _ _ => "ab".data ) 999999 "p".data "s".data
    "t=x,v1=ab".data (by decide) (by decide)).mpr
    ⟨⟨ "x".data, "ab".data ⟩, by decide, by decide⟩

/-! ## C2 -/

/-- C2: the second variant's POST evaluates randomUUID before entering its
try block; the identifier is undefined, so every request makes the handler
raise a ReferenceError that escapes to the host instead of being answered
with a 500 response. -/
theorem routeB_POST_uncaught_reference_error
    (env : RouteB.Env) (hmacHex : List Char → List Char → Except JsErr (List Char))
    (now : Int) (parseURL : List Char → Option URLParts) (pingBody : List Char)
    (fetched : OutboundRequest → FetchOutcome) (request : InboundRequest) :
    RouteB.POST env hmacHex now parseURL pingBody fetched request =
      Except.error (JsErr.referenceError "randomUUID is not defined".data ) := rfl

/-! ## C4 -/

/-- C4 counterexample: the first variant performs no scheme check, so a
non-https destination URL still produces an outbound network request. -/
theorem routeA_forwards_to_non_https_url :
    RouteA.forwardToSupabase
      ⟨some "http://h".data, some "k".data, none, some "s".data ⟩
      (fun _ => FetchOutcome.response 200 none) "p".data "sg".data =
      (RouteA.ForwardResult.success 200,
        some ⟨ "http://h".data,
          [ ( "Content-Type".data, "application/json".data ),
            ( "Authorization".data, "Bearer k".data ),
            ( "stripe-signature".data, "sg".data ) ],
          "p".data ⟩) := by decide

/-- C4 amended: in the second variant every configuration defect (missing
credential, missing URL, unparseable URL, non-https scheme) is answered
with a configuration error and no outbound request; the first variant only
checks URL and credential presence before calling fetch. -/
theorem forward_config_checked_before_fetch
    (envB : RouteB.Env) (parseURL : List Char → Option URLParts)
    (pingBody : List Char) (fetchedB : OutboundRequest → FetchOutcome)
    (rawBody sig ct : List Char) (ping : Bool) (u : URLParts)
    (envA : RouteA.Env) (fetchedA : OutboundRequest → FetchOutcome) :
    (∀ (msg : List Char) (r : Option OutboundRequest),
      RouteB.forwardToSupabase envB parseURL pingBody fetchedB rawBody sig ct ping =
        (RouteB.ForwardResult.failConfig msg, r) → r = none)
    ∧ (optFalsy (envB.internalEdgeAuthToken.map jsTrim) = true →
      RouteB.forwardToSupabase envB parseURL pingBody fetchedB rawBody sig ct ping =
        (RouteB.ForwardResult.failConfig "INTERNAL_EDGE_AUTH_TOKEN missing".data, none))
    ∧ (optFalsy (envB.internalEdgeAuthToken.map jsTrim) = false →
      ((envB.supabaseInternalWebhookUrl.map jsTrim).getD []).isEmpty = true →
      RouteB.forwardToSupabase envB parseURL pingBody fetchedB rawBody sig ct ping =
        (RouteB.ForwardResult.failConfig "Server configuration error".data, none))
    ∧ (optFalsy (envB.internalEdgeAuthToken.map jsTrim) = false →
      ((envB.supabaseInternalWebhookUrl.map jsTrim).getD []).isEmpty = false →
      parseURL ((envB.supabaseInternalWebhookUrl.map jsTrim).getD []) = none →
      RouteB.forwardToSupabase envB parseURL pingBody fetchedB rawBody sig ct ping =
        (RouteB.ForwardResult.failConfig "Invalid SUPABASE_INTERNAL_WEBHOOK_URL".data, none))
    ∧ (optFalsy (envB.internalEdgeAuthToken.map jsTrim) = false →
      ((envB.supabaseInternalWebhookUrl.map jsTrim).getD []).isEmpty = false →
      parseURL ((envB.supabaseInternalWebhookUrl.map jsTrim).getD []) = some u →
      u.protocol ≠ "https:".data →
      RouteB.forwardToSupabase envB parseURL pingBody fetchedB rawBody sig ct ping =
        (RouteB.ForwardResult.failConfig "SUPABASE_INTERNAL_WEBHOOK_URL must use https protocol".data, none))
    ∧ (optFalsy envA.supabaseInternalWebhookUrl = true ∨
        optFalsy envA.supabaseServiceRoleKey = true →
      RouteA.forwardToSupabase envA fetchedA rawBody sig =
        (RouteA.ForwardResult.fail, none)) := by
  refine ⟨?_, ?_, ?_, ?_, ?_, ?_⟩
  · intro msg r h
    simp only [RouteB.forwardToSupabase] at h
    split at h
    · rw [Prod.mk.injEq] at h; exact h.2.symm
    · split at h
      · rw [Prod.mk.injEq] at h; exact h.2.symm
      · split at h
        · rw [Prod.mk.injEq] at h; exact h.2.symm
        · split at h
          · rw [Prod.mk.injEq] at h; exact h.2.symm
          · split at h
            · split at h
              · rw [Prod.mk.injEq] at h
                exact RouteB.ForwardResult.noConfusion h.1
              · rw [Prod.mk.injEq] at h
                exact RouteB.ForwardResult.noConfusion h.1
            · rw [Prod.mk.injEq] at h
              exact RouteB.ForwardResult.noConfusion h.1
  · intro h1
    simp [RouteB.forwardToSupabase, h1]
  · intro h1 h2
    simp [RouteB.forwardToSupabase, h1, h2]
  · intro h1 h2 h3
    simp [RouteB.forwardToSupabase, h1, h2, h3]
  · intro h1 h2 h3 h4
    simp [RouteB.forwardToSupabase, h1, h2, h3, h4]
  · intro h
    simp [RouteA.forwardToSupabase, h]

/-- Witness for C4 at concrete inputs: an http destination URL in the
second variant is rejected as a configuration error before any fetch. -/
theorem forward_config_checked_before_fetch_witness :
    RouteB.forwardToSupabase
      ⟨some "http://h".data, none, some "tk".data, some "s".data, none⟩
      (fun _ => some ⟨ "http:".data, "h".data, "/".data ⟩)
      "PB".data (fun _ => FetchOutcome.response 200 none)
      "p".data "sg".data "ct".data false =
      (RouteB.ForwardResult.failConfig "SUPABASE_INTERNAL_WEBHOOK_URL must use https protocol".data, none) :=
  (forward_config_checked_before_fetch
    ⟨some "http://h".data, none, some "tk".data, some "s".data, none⟩
    (fun _ => some ⟨ "http:".data, "h".data, "/".data ⟩)
    "PB".data (fun _ => FetchOutcome.response 200 none)
    "p".data "sg".data "ct".data false ⟨ "http:".data, "h".data, "/".data ⟩
    ⟨none, none, none, none⟩ (fun _ => FetchOutcome.response 200 none)).2.2.2.2.1
    (by decide) (by decide) (by decide) (by decide)

/-! ## C3 -/

/-- C3 counterexample: in the first variant a verified request whose fetch
throws at the connection level is answered 500, not 502. -/
theorem routeA_fetch_throw_responds_500 :
    RouteA.POST ⟨some "https://h".data, some "k".data, none, some "s".data ⟩
      (okHmac (fun _ _ => "ab".data )) 0
      (fun _ => FetchOutcome.thrown "TypeError".data "fetch failed".data none)
      ⟨Except.ok "p".data, some "t=0,v1=ab".data, none⟩ =
      (⟨500, RespBody.err "Failed to forward webhook".data ⟩,
        some ⟨ "https://h".data,
          [ ( "Content-Type".data, "application/json".data ),
            ( "Authorization".data, "Bearer k".data ),
            ( "stripe-signature".data, "t=0,v1=ab".data ) ],
          "p".data ⟩) := by decide

/-- When the second variant's forward reaches fetch and the fetch throws,
the result is the 502 gateway failure carrying the error details. -/
theorem routeB_forward_thrown
    (env : RouteB.Env) (parseURL : List Char → Option URLParts)
    (pingBody : List Char) (fetched : OutboundRequest → FetchOutcome)
    (rawBody sig ct : List Char) (ping : Bool) (q : OutboundRequest)
    (name message : List Char) (cause : Option CauseLike)
    (hq : (RouteB.forwardToSupabase env parseURL pingBody fetched rawBody sig ct ping).2 =
      some q)
    (hf : fetched q = FetchOutcome.thrown name message cause) :
    RouteB.forwardToSupabase env parseURL pingBody fetched rawBody sig ct ping =
      (RouteB.ForwardResult.failGateway 502 name message (RouteB.causeCodeOf cause), some q) := by
  cases h1 : optFalsy (env.internalEdgeAuthToken.map jsTrim) with
  | true => simp [RouteB.forwardToSupabase, h1] at hq
  | false =>
    cases h2 : ((env.supabaseInternalWebhookUrl.map jsTrim).getD []).isEmpty with
    | true => simp [RouteB.forwardToSupabase, h1, h2] at hq
    | false =>
      cases h3 : parseURL ((env.supabaseInternalWebhookUrl.map jsTrim).getD []) with
      | none => simp [RouteB.forwardToSupabase, h1, h2, h3] at hq
      | some u =>
        by_cases h4 : u.protocol = "https:".data
        · have hred : RouteB.forwardToSupabase env parseURL pingBody fetched rawBody sig ct ping =
              (match fetched (RouteB.builtRequest env rawBody sig ct pingBody ping) with
                | FetchOutcome.response status _ =>
                  if 200 ≤ status ∧ status ≤ 299 then
                    (RouteB.ForwardResult.success status,
                      some (RouteB.builtRequest env rawBody sig ct pingBody ping))
                  else
                    (RouteB.ForwardResult.failStatus status,
                      some (RouteB.builtRequest env rawBody sig ct pingBody ping))
                | FetchOutcome.thrown n m c =>
                  (RouteB.ForwardResult.failGateway 502 n m (RouteB.causeCodeOf c),
                    some (RouteB.builtRequest env rawBody sig ct pingBody ping))) := by
            simp [RouteB.forwardToSupabase, h1, h2, h3, h4]
          rw [hred] at hq ⊢
          cases h5 : fetched (RouteB.builtRequest env rawBody sig ct pingBody ping) with
          | response st b =>
            rw [h5] at hq
            have hqb : RouteB.builtRequest env rawBody sig ct pingBody ping = q := by
              by_cases h6 : 200 ≤ st ∧ st ≤ 299
              · simp [h6] at hq
                exact hq
              · simp [h6] at hq
                exact hq
            rw [hqb, hf] at h5
            exact FetchOutcome.noConfusion h5
          | thrown n m c =>
            rw [h5] at hq
            have hqb : RouteB.builtRequest env rawBody sig ct pingBody ping = q := by
              simpa using hq
            rw [hqb, hf] at h5
            injection h5 with e1 e2 e3
            rw [← e1, ← e2, ← e3, hqb]
        · simp [RouteB.forwardToSupabase, h1, h2, h3, h4] at hq

/-- C3 amended: in the second variant, whenever the request handling
inside the try block has issued an outbound request and the fetch throws
(timeout, DNS, TLS, connection reset), the response is 502 with the
gateway error details. -/
theorem routeB_handle_fetch_throw_502
    (env : RouteB.Env) (hmacHex : List Char → List Char → Except JsErr (List Char))
    (now : Int) (parseURL : List Char → Option URLParts) (pingBody : List Char)
    (fetched : OutboundRequest → FetchOutcome) (request : InboundRequest)
    (q : OutboundRequest) (name message : List Char) (cause : Option CauseLike) :
    (RouteB.handle env hmacHex now parseURL pingBody fetched request).2 = some q →
    fetched q = FetchOutcome.thrown name message cause →
    (RouteB.handle env hmacHex now parseURL pingBody fetched request).1 =
      ⟨502, RespBody.errWithDetails "Failed to forward to Supabase".data
        name message (RouteB.causeCodeOf cause)⟩ := by
  intro hq hf
  cases hb : request.bodyText with
  | error e => simp [RouteB.handle, hb] at hq
  | ok rawBody =>
    cases hsig : optFalsy request.stripeSignature with
    | true => simp [RouteB.handle, hb, hsig] at hq
    | false =>
      cases hsec : optFalsy env.stripeWebhookSecret with
      | true => simp [RouteB.handle, hb, hsig, hsec] at hq
      | false =>
        cases hv : (verifyStripeSignature hmacHex now rawBody
            (request.stripeSignature.getD []) (env.stripeWebhookSecret.getD [])).valid with
        | false => simp [RouteB.handle, hb, hsig, hsec, hv] at hq
        | true =>
          simp only [RouteB.handle, hb, hsig, hsec, hv] at hq ⊢
          simp only [Bool.false_eq_true, if_false, if_true] at hq ⊢
          cases hfwd : RouteB.forwardToSupabase env parseURL pingBody fetched rawBody
              (request.stripeSignature.getD []) (RouteB.contentTypeOf request)
              (RouteB.pingModeOf env) with
          | mk res r =>
            rw [hfwd] at hq
            have hr : r = some q := by
              cases res <;> simpa using hq
            have h2 : (RouteB.forwardToSupabase env parseURL pingBody fetched rawBody
                (request.stripeSignature.getD []) (RouteB.contentTypeOf request)
                (RouteB.pingModeOf env)).2 = some q := by
              rw [hfwd]
              exact hr
            have h3 := routeB_forward_thrown env parseURL pingBody fetched rawBody
              (request.stripeSignature.getD []) (RouteB.contentTypeOf request)
              (RouteB.pingModeOf env) q name message cause h2 hf
            rw [hfwd, Prod.mk.injEq] at h3
            cases res with
            | success st => exact absurd h3.1 (by simp)
            | failStatus st => exact absurd h3.1 (by simp)
            | failConfig msg => exact absurd h3.1 (by simp)
            | failGateway st n m cc =>
              rw [RouteB.ForwardResult.failGateway.injEq] at h3
              obtain ⟨⟨e1, e2, e3, e4⟩, _⟩ := h3
              simp [e1, e2, e3, e4]


/-- Witness for C3's amended theorem: a concrete verified request whose
fetch throws is answered 502 with the error details by the second
variant's try-block body. -/
theorem routeB_handle_fetch_throw_502_witness :
    (RouteB.handle ⟨some "https://h".data, none, some "tk".data, some "s".data, none⟩
      (okHmac (fun _ _ => "ab".data )) 0
      (fun _ => some ⟨ "https:".data, "h".data, "/".data ⟩) "PB".data
      (fun _ => FetchOutcome.thrown "TypeError".data "fetch failed".data none)
      ⟨Except.ok "p".data, some "t=0,v1=ab".data, none⟩).1 =
      ⟨502, RespBody.errWithDetails "Failed to forward to Supabase".data
        "TypeError".data "fetch failed".data none⟩ :=
  routeB_handle_fetch_throw_502
    ⟨some "https://h".data, none, some "tk".data, some "s".data, none⟩
    (okHmac (fun _ _ => "ab".data )) 0
    (fun _ => some ⟨ "https:".data, "h".data, "/".data ⟩) "PB".data
    (fun _ => FetchOutcome.thrown "TypeError".data "fetch failed".data none)
    ⟨Except.ok "p".data, some "t=0,v1=ab".data, none⟩
    (RouteB.builtRequest ⟨some "https://h".data, none, some "tk".data, some "s".data, none⟩
      "p".data "t=0,v1=ab".data "application/json".data "PB".data false)
    "TypeError".data "fetch failed".data none (by decide) (by decide)

/-! ## C6 -/

/-- The first variant's forward attempt succeeds exactly when an outbound
request was issued and its fetch returned a 2xx status; a non-2xx status
yields the failStatus result. -/
theorem routeA_forward_spec (env : RouteA.Env) (fetched : OutboundRequest → FetchOutcome)
    (rawBody sig : List Char) :
    ((∃ s, (RouteA.forwardToSupabase env fetched rawBody sig).1 =
        RouteA.ForwardResult.success s) ↔
      (∃ q s b, (RouteA.forwardToSupabase env fetched rawBody sig).2 = some q ∧
        fetched q = FetchOutcome.response s b ∧ 200 ≤ s ∧ s ≤ 299))
    ∧ (∀ q s b, (RouteA.forwardToSupabase env fetched rawBody sig).2 = some q →
        fetched q = FetchOutcome.response s b → ¬(200 ≤ s ∧ s ≤ 299) →
        (RouteA.forwardToSupabase env fetched rawBody sig).1 =
          RouteA.ForwardResult.failStatus s) := by
  by_cases hcfg : optFalsy env.supabaseInternalWebhookUrl = true ∨
      optFalsy env.supabaseServiceRoleKey = true
  · have hfwd : RouteA.forwardToSupabase env fetched rawBody sig =
        (RouteA.ForwardResult.fail, none) := by
      simp [RouteA.forwardToSupabase, hcfg]
    rw [hfwd]
    constructor
    · constructor
      · rintro ⟨s, hs⟩
        exact absurd hs (by simp)
      · rintro ⟨q, s, b, hq, _⟩
        exact absurd hq (by simp)
    · intro q s b hq
      simp at hq
  · cases hresp : fetched (RouteA.builtRequest env rawBody sig) with
    | response st b0 =>
      by_cases h2 : 200 ≤ st ∧ st ≤ 299
      · have hfwd : RouteA.forwardToSupabase env fetched rawBody sig =
            (RouteA.ForwardResult.success st, some (RouteA.builtRequest env rawBody sig)) := by
          simp [RouteA.forwardToSupabase, hcfg, hresp, h2]
        rw [hfwd]
        constructor
        · constructor
          · intro _
            exact ⟨RouteA.builtRequest env rawBody sig, st, b0, rfl, hresp, h2.1, h2.2⟩
          · intro _
            exact ⟨st, rfl⟩
        · intro q s b hq hfq hns
          have hq' : RouteA.builtRequest env rawBody sig = q := by simpa using hq
          rw [← hq', hresp] at hfq
          injection hfq with es eb
          subst es
          exact absurd h2 hns
      · have hfwd : RouteA.forwardToSupabase env fetched rawBody sig =
            (RouteA.ForwardResult.failStatus st, some (RouteA.builtRequest env rawBody sig)) := by
          simp [RouteA.forwardToSupabase, hcfg, hresp, h2]
        rw [hfwd]
        constructor
        · constructor
          · rintro ⟨s, hs⟩
            exact absurd hs (by simp)
          · rintro ⟨q, s, b, hq, hfq, hs1, hs2⟩
            exfalso
            have hq' : RouteA.builtRequest env rawBody sig = q := by simpa using hq
            rw [← hq', hresp] at hfq
            injection hfq with es eb
            subst es
            exact h2 ⟨hs1, hs2⟩
        · intro q s b hq hfq hns
          have hq' : RouteA.builtRequest env rawBody sig = q := by simpa using hq
          rw [← hq', hresp] at hfq
          injection hfq with es eb
          subst es
          rfl
    | thrown n m c =>
      have hfwd : RouteA.forwardToSupabase env fetched rawBody sig =
          (RouteA.ForwardResult.fail, some (RouteA.builtRequest env rawBody sig)) := by
        simp [RouteA.forwardToSupabase, hcfg, hresp]
      rw [hfwd]
      constructor
      · constructor
        · rintro ⟨s, hs⟩
          exact absurd hs (by simp)
        · rintro ⟨q, s, b, hq, hfq, _⟩
          exfalso
          have hq' : RouteA.builtRequest env rawBody sig = q := by simpa using hq
          rw [← hq', hresp] at hfq
          exact FetchOutcome.noConfusion hfq
      · intro q s b hq hfq hns
        exfalso
        have hq' : RouteA.builtRequest env rawBody sig = q := by simpa using hq
        rw [← hq', hresp] at hfq
        exact FetchOutcome.noConfusion hfq

/-- C6: the first variant's POST answers 200 with the ok body exactly when
the body was read, the signature header and secret are present, the
signature verifies, and the issued downstream request got a 2xx status;
any downstream status outside 200 to 299 makes the response non-2xx. -/
theorem routeA_ok_iff_downstream_2xx
    (env : RouteA.Env) (hmacHex : List Char → List Char → Except JsErr (List Char))
    (now : Int) (fetched : OutboundRequest → FetchOutcome) (request : InboundRequest) :
    ((RouteA.POST env hmacHex now fetched request).1 = ⟨200, RespBody.okTrue⟩ ↔
      ((∃ rawBody, request.bodyText = Except.ok rawBody ∧
          optFalsy request.stripeSignature = false ∧
          optFalsy env.stripeWebhookSecret = false ∧
          (verifyStripeSignature hmacHex now rawBody (request.stripeSignature.getD [])
            (env.stripeWebhookSecret.getD [])).valid = true)
        ∧ ∃ q s b, (RouteA.POST env hmacHex now fetched request).2 = some q ∧
            fetched q = FetchOutcome.response s b ∧ 200 ≤ s ∧ s ≤ 299))
    ∧ (∀ q s b, (RouteA.POST env hmacHex now fetched request).2 = some q →
        fetched q = FetchOutcome.response s b → ¬(200 ≤ s ∧ s ≤ 299) →
        ¬(200 ≤ (RouteA.POST env hmacHex now fetched request).1.status ∧
          (RouteA.POST env hmacHex now fetched request).1.status ≤ 299)) := by
  cases hb : request.bodyText with
  | error e =>
    have hpost : RouteA.POST env hmacHex now fetched request =
        (⟨500, RespBody.err "Internal server error".data ⟩, none) := by
      simp [RouteA.POST, hb]
    rw [hpost]
    constructor
    · constructor
      · intro h
        exact absurd h (by simp)
      · rintro ⟨⟨rb, hrb, _⟩, _⟩
        exact Except.noConfusion hrb
    · intro q s b hq
      simp at hq
  | ok rawBody =>
    cases hsig : optFalsy request.stripeSignature with
    | true =>
      have hpost : RouteA.POST env hmacHex now fetched request =
          (⟨400, RespBody.err "Missing stripe-signature header".data ⟩, none) := by
        simp [RouteA.POST, hb, hsig]
      rw [hpost]
      constructor
      · constructor
        · intro h
          exact absurd h (by simp)
        · rintro ⟨⟨rb, hrb, hs2, _⟩, _⟩
          exact Bool.noConfusion hs2
      · intro q s b hq
        simp at hq
    | false =>
      cases hsec : optFalsy env.stripeWebhookSecret with
      | true =>
        have hpost : RouteA.POST env hmacHex now fetched request =
            (⟨500, RespBody.err "Server configuration error".data ⟩, none) := by
          simp [RouteA.POST, hb, hsig, hsec]
        rw [hpost]
        constructor
        · constructor
          · intro h
            exact absurd h (by simp)
          · rintro ⟨⟨rb, hrb, _, hs3, _⟩, _⟩
            exact Bool.noConfusion hs3
        · intro q s b hq
          simp at hq
      | false =>
        cases hv : (verifyStripeSignature hmacHex now rawBody
            (request.stripeSignature.getD []) (env.stripeWebhookSecret.getD [])).valid with
        | false =>
          have hpost : RouteA.POST env hmacHex now fetched request =
              (⟨400, RespBody.err "Invalid signature".data ⟩, none) := by
            simp [RouteA.POST, hb, hsig, hsec, hv]
          rw [hpost]
          constructor
          · constructor
            · intro h
              exact absurd h (by simp)
            · rintro ⟨⟨rb, hrb, _, _, hs4⟩, _⟩
              injection hrb with e
              rw [← e] at hs4
              rw [hs4] at hv
              exact Bool.noConfusion hv
          · intro q s b hq
            simp at hq
        | true =>
          have hspec := routeA_forward_spec env fetched rawBody
            (request.stripeSignature.getD [])
          cases hfwd : RouteA.forwardToSupabase env fetched rawBody
              (request.stripeSignature.getD []) with
          | mk res r =>
            cases res with
            | success st =>
              have hpost : RouteA.POST env hmacHex now fetched request =
                  (⟨200, RespBody.okTrue⟩, r) := by
                simp [RouteA.POST, hb, hsig, hsec, hv, hfwd]
              rw [hpost]
              constructor
              · constructor
                · intro _
                  obtain ⟨q, s, b, hq2, hfq, hs1, hs2⟩ :=
                    hspec.1.mp ⟨st, by rw [hfwd]⟩
                  rw [hfwd] at hq2
                  exact ⟨⟨rawBody, rfl, rfl, rfl, hv⟩, q, s, b, hq2, hfq, hs1, hs2⟩
                · intro _
                  rfl
              · intro q s b hq hfq hns
                have h3 := hspec.2 q s b (by rw [hfwd]; exact hq) hfq hns
                rw [hfwd] at h3
                exact absurd h3 (by simp)
            | failStatus st =>
              have hpost : RouteA.POST env hmacHex now fetched request =
                  (⟨500, RespBody.err "Failed to forward webhook".data ⟩, r) := by
                simp [RouteA.POST, hb, hsig, hsec, hv, hfwd]
              rw [hpost]
              constructor
              · constructor
                · intro h
                  exact absurd h (by simp)
                · rintro ⟨_, q, s, b, hq, hfq, hs1, hs2⟩
                  obtain ⟨s', hs'⟩ :=
                    hspec.1.mpr ⟨q, s, b, by rw [hfwd]; exact hq, hfq, hs1, hs2⟩
                  rw [hfwd] at hs'
                  exact absurd hs' (by simp)
              · intro q s b hq hfq hns hcon
                simp at hcon
            | fail =>
              have hpost : RouteA.POST env hmacHex now fetched request =
                  (⟨500, RespBody.err "Failed to forward webhook".data ⟩, r) := by
                simp [RouteA.POST, hb, hsig, hsec, hv, hfwd]
              rw [hpost]
              constructor
              · constructor
                · intro h
                  exact absurd h (by simp)
                · rintro ⟨_, q, s, b, hq, hfq, hs1, hs2⟩
                  obtain ⟨s', hs'⟩ :=
                    hspec.1.mpr ⟨q, s, b, by rw [hfwd]; exact hq, hfq, hs1, hs2⟩
                  rw [hfwd] at hs'
                  exact absurd hs' (by simp)
              · intro q s b hq hfq hns hcon
                simp at hcon

/-- Witness for C6: a fully configured concrete request forwarded to a
downstream that answers 204 is answered 200 with the ok body. -/
theorem routeA_ok_iff_downstream_2xx_witness :
    (RouteA.POST ⟨some "https://h".data, some "k".data, none, some "s".data ⟩
      (okHmac (fun _ _ => "ab".data )) 0 (fun _ => FetchOutcome.response 204 none)
      ⟨Except.ok "p".data, some "t=0,v1=ab".data, none⟩).1 = ⟨200, RespBody.okTrue⟩ :=
  (routeA_ok_iff_downstream_2xx ⟨some "https://h".data, some "k".data, none, some "s".data ⟩
    (okHmac (fun _ _ => "ab".data )) 0 (fun _ => FetchOutcome.response 204 none)
    ⟨Except.ok "p".data, some "t=0,v1=ab".data, none⟩).1.mpr
    ⟨⟨ "p".data, rfl, rfl, rfl, by decide⟩,
      RouteA.builtRequest ⟨some "https://h".data, some "k".data, none, some "s".data ⟩
        "p".data "t=0,v1=ab".data,
      204, none, by decide, rfl, by decide, by decide⟩

/-! ## C5 -/

/-- C5 counterexample: the first variant ignores the inbound content type
(text/plain here) and always forwards with the application/json content
type. -/
theorem routeA_content_type_not_preserved :
    RouteA.POST ⟨some "https://h".data, some "k".data, none, some "s".data ⟩
      (okHmac (fun _ _ => "ab".data )) 0
      (fun _ => FetchOutcome.response 200 none)
      ⟨Except.ok "p".data, some "t=0,v1=ab".data, some "text/plain".data ⟩ =
      (⟨200, RespBody.okTrue⟩,
        some ⟨ "https://h".data,
          [ ( "Content-Type".data, "application/json".data ),
            ( "Authorization".data, "Bearer k".data ),
            ( "stripe-signature".data, "t=0,v1=ab".data ) ],
          "p".data ⟩) := by decide

/-- C5 amended: whenever a request is issued it is the built request; with
ping mode off the built body is the raw payload byte for byte and the
stripe-signature header is forwarded verbatim in both variants; the
content type is preserved (with a JSON default) only in the second
variant, while the first variant always sends application/json; ping mode
in the second variant substitutes the synthetic body. -/
theorem forward_sends_raw_payload
    (envB : RouteB.Env) (parseURL : List Char → Option URLParts)
    (pingBody : List Char) (fetchedB : OutboundRequest → FetchOutcome)
    (rawBody sig ct : List Char) (ping : Bool) (q q' : OutboundRequest)
    (envA : RouteA.Env) (fetchedA : OutboundRequest → FetchOutcome) :
    ((RouteB.forwardToSupabase envB parseURL pingBody fetchedB rawBody sig ct ping).2 =
        some q → q = RouteB.builtRequest envB rawBody sig ct pingBody ping)
    ∧ (RouteB.builtRequest envB rawBody sig ct pingBody false).body = rawBody
    ∧ lookupHeader "stripe-signature".data (RouteB.requestHeaders envB sig ct) = some sig
    ∧ lookupHeader "Content-Type".data (RouteB.requestHeaders envB sig ct) =
        some (if ct.isEmpty then "application/json".data else ct)
    ∧ (RouteB.builtRequest envB rawBody sig ct pingBody true).body = pingBody
    ∧ ((RouteA.forwardToSupabase envA fetchedA rawBody sig).2 = some q' →
        q' = RouteA.builtRequest envA rawBody sig)
    ∧ (RouteA.builtRequest envA rawBody sig).body = rawBody
    ∧ lookupHeader "stripe-signature".data (RouteA.requestHeaders envA sig) = some sig
    ∧ lookupHeader "Content-Type".data (RouteA.requestHeaders envA sig) =
        some "application/json".data := by
  refine ⟨?_, rfl, ?_, ?_, rfl, ?_, rfl, ?_, ?_⟩
  · intro h
    simp only [RouteB.forwardToSupabase] at h
    split at h
    · exact absurd h (by simp)
    · split at h
      · exact absurd h (by simp)
      · split at h
        · exact absurd h (by simp)
        · split at h
          · exact absurd h (by simp)
          · split at h
            · split at h
              · simpa using h.symm
              · simpa using h.symm
            · simpa using h.symm
  · simp only [RouteB.requestHeaders]
    split <;> simp [lookupHeader]
  · simp only [RouteB.requestHeaders]
    split <;> simp [lookupHeader]
  · intro h
    simp only [RouteA.forwardToSupabase] at h
    split at h
    · exact absurd h (by simp)
    · split at h
      · split at h
        · simpa using h.symm
        · simpa using h.symm
      · simpa using h.symm
  · simp only [RouteA.requestHeaders]
    split <;> simp [lookupHeader]
  · simp only [RouteA.requestHeaders]
    split <;> simp [lookupHeader]

/-- Witness for C5: the request issued by the second variant for a
text/plain payload is the built request, whose content type is the
inbound one and whose body is the raw payload. -/
theorem forward_sends_raw_payload_witness :
    (⟨ "https://h".data,
      [ ( "Content-Type".data, "text/plain".data ),
        ( "stripe-signature".data, "sg".data ),
        ( "Stripe-Signature".data, "sg".data ),
        ( "authorization".data, "Bearer tk".data ) ],
      "p".data ⟩ : OutboundRequest) =
      RouteB.builtRequest ⟨some "https://h".data, none, some "tk".data, some "s".data, none⟩
        "p".data "sg".data "text/plain".data "PB".data false :=
  (forward_sends_raw_payload
    ⟨some "https://h".data, none, some "tk".data, some "s".data, none⟩
    (fun _ => some ⟨ "https:".data, "h".data, "/".data ⟩)
    "PB".data (fun _ => FetchOutcome.response 200 none)
    "p".data "sg".data "text/plain".data false
    ⟨ "https://h".data,
      [ ( "Content-Type".data, "text/plain".data ),
        ( "stripe-signature".data, "sg".data ),
        ( "Stripe-Signature".data, "sg".data ),
        ( "authorization".data, "Bearer tk".data ) ],
      "p".data ⟩
    ⟨ [], [], [] ⟩ ⟨none, none, none, none⟩
    (fun _ => FetchOutcome.response 200 none)).1 (by decide)
